import Mathlib

/-!
Verification of the sharkId annotation-and-validation subsystem.

The definitions below are a shallow embedding of the TypeScript source:
geometry helpers (`clamp`, `normaliseRect`, the zone-overlay conversion
`toImageSpace`), the annotation page state and handlers from the photo
detail page, and the validation queue controller state and handlers from
`src/frontend/src/pages/ValidationQueue.tsx`.  Numbers are modelled as
rationals; JavaScript array indices are modelled as integers (they can go
negative, and the embedding must preserve that).
-/

namespace SharkId

/-- Geometry helper from the photo-detail page:
`clamp(v, lo = 0, hi = 1) = Math.max(lo, Math.min(hi, v))`. -/
def clamp (lo hi v : ℚ) : ℚ := max lo (min hi v)

/-- The one-argument form `clamp(v)` used throughout the source,
with the default bounds `lo = 0`, `hi = 1`. -/
def clamp01 (v : ℚ) : ℚ := clamp 0 1 v

/-- Normalized rectangle `{x, y, w, h}` (the `BBox` type of the source). -/
structure BBox where
  x : ℚ
  y : ℚ
  w : ℚ
  h : ℚ
deriving DecidableEq, Repr

/-- `normaliseRect(ax, ay, bx, by)` from the photo-detail page: builds the
axis-aligned rectangle spanned by two drag endpoints. -/
def normaliseRect (ax ay bx b_y : ℚ) : BBox :=
  { x := clamp01 (min ax bx)
  , y := clamp01 (min ay b_y)
  , w := clamp01 |bx - ax|
  , h := clamp01 |b_y - ay| }

/-- Conversion of a shark-crop-relative zone rectangle to image space, as
rendered by the zone overlays (`ValidationQueue.tsx` and the step-3 view of
the photo-detail page): `x = shark.x + zone.x·shark.w`, etc. -/
def toImageSpace (zoneRect sharkRect : BBox) : BBox :=
  { x := sharkRect.x + zoneRect.x * sharkRect.w
  , y := sharkRect.y + zoneRect.y * sharkRect.h
  , w := zoneRect.w * sharkRect.w
  , h := zoneRect.h * sharkRect.h }

/-- Membership of a scalar in the unit interval. -/
def unitI (v : ℚ) : Prop := 0 ≤ v ∧ v ≤ 1

/-- All four components of a rectangle lie in the unit interval. -/
def rectIn01 (r : BBox) : Prop :=
  unitI r.x ∧ unitI r.y ∧ unitI r.w ∧ unitI r.h

instance (v : ℚ) : Decidable (unitI v) := by unfold unitI; infer_instance

instance (r : BBox) : Decidable (rectIn01 r) := by unfold rectIn01; infer_instance

/-- Photo orientation tag. -/
inductive Orientation where
  | face_left : Orientation
  | face_right : Orientation
deriving DecidableEq, Repr

/-- Processing status of a photo. -/
inductive ProcessingStatus where
  | uploaded : ProcessingStatus
  | processing : ProcessingStatus
  | ready_for_validation : ProcessingStatus
  | validated : ProcessingStatus
  | error : ProcessingStatus
deriving DecidableEq, Repr

/-- The `Candidate` interface of the frontend types module (appended at the
end of `ObservationDetail.tsx`): `{shark_id, display_name, score}`. -/
structure Candidate where
  shark_id : String
  display_name : String
  score : ℚ
deriving DecidableEq, Repr

/-- The `Photo` interface of the frontend types module (appended at the end
of `ObservationDetail.tsx`), with all eighteen fields in source order;
nullable fields become `Option`, `number` becomes `ℚ`, ISO timestamps stay
strings. -/
structure Photo where
  id : String
  object_key : String
  content_type : String
  size : ℚ
  uploaded_at : String
  taken_at : Option String
  gps_lat : Option ℚ
  gps_lon : Option ℚ
  processing_status : ProcessingStatus
  top5_candidates : Option (List Candidate)
  dive_session_id : Option String
  shark_id : Option String
  is_profile_photo : Bool
  shark_bbox : Option BBox
  zone_bbox : Option BBox
  orientation : Option Orientation
  auto_detected : Bool
  url : Option String
deriving DecidableEq, Repr

/-- Tab selector of the validation-queue page. -/
inductive Tab where
  | queue : Tab
  | unlinked : Tab
deriving DecidableEq, Repr

/-- JavaScript truthiness of the `lightboxUrl : string | null` field:
`null` and the empty string are falsy. -/
def strTruthy : Option String → Bool
  | none => false
  | some u => u != ""

/-- The component state of `ValidationQueue.tsx` relevant to the queue
workflow: the working set `queue`, the cursor `idx` (an integer, as in JS),
the selection, the modal/lightbox flags, and the error/submitting flags. -/
structure QueueState where
  tab : Tab
  queue : List Photo
  idx : ℤ
  error : String
  submitting : Bool
  lightboxUrl : Option String
  selectedCandidate : Option Candidate
  showNewShark : Bool
  showPicker : Bool
deriving DecidableEq, Repr

/-- The initial `useState` values of the queue page. -/
def initialQueueState : QueueState :=
  { tab := Tab.queue
  , queue := []
  , idx := 0
  , error := ""
  , submitting := false
  , lightboxUrl := none
  , selectedCandidate := none
  , showNewShark := false
  , showPicker := false }

/-- Effect of the initial load resolving: `setQueue(q); setIdx(0)`. -/
def loadQueue (q : List Photo) (s : QueueState) : QueueState :=
  { s with queue := q, idx := 0 }

/-- `prev.filter((_, i) => i !== idx)`: keep the elements whose position
(counted from `n`) differs from `i`. -/
def filterIdxNe {α : Type} (i : ℤ) : ℤ → List α → List α
  | _, [] => []
  | n, a :: as =>
    if n ≠ i then a :: filterIdxNe i (n + 1) as else filterIdxNe i (n + 1) as

/-- `removeCurrentAndAdvance` from `ValidationQueue.tsx`: drop the element
at position `idx`, set `idx` to `Math.min(idx, Math.max(next.length - 1, 0))`,
and clear the candidate selection. -/
def removeCurrentAndAdvance (s : QueueState) : QueueState :=
  { s with
      queue := filterIdxNe s.idx 0 s.queue
    , idx := min s.idx (max ((filterIdxNe s.idx 0 s.queue).length - 1 : ℤ) 0)
    , selectedCandidate := none }

/-- `queue[idx] ?? null`: JS indexing yields `undefined` outside bounds. -/
def photoAt (s : QueueState) : Option Photo :=
  if 0 ≤ s.idx then s.queue[s.idx.toNat]? else none

/-- Outcome of the `validatePhoto` call made by `submit` (the returned
photo is discarded by the caller, so `ok` carries no payload). -/
inductive SubmitResult where
  | ok : SubmitResult
  | fail : String → SubmitResult
deriving DecidableEq, Repr

/-- `submit(action, extra)` from `ValidationQueue.tsx`, with the outcome of
the awaited server call made explicit: no photo at the cursor is a no-op;
on success `removeCurrentAndAdvance` runs; on failure only the error
message is set.  `submitting` is true during the call and false after. -/
def submit (res : SubmitResult) (s : QueueState) : QueueState :=
  match photoAt s with
  | none => s
  | some _ =>
    match res with
    | SubmitResult.ok => { removeCurrentAndAdvance s with submitting := false }
    | SubmitResult.fail msg => { s with error := msg, submitting := false }

/-- The `handleKey` keyboard handler: suppressed outside the queue tab and
while a modal or the lightbox is open; ArrowLeft moves the cursor to
`Math.max(idx - 1, 0)`, ArrowRight to `Math.min(idx + 1, total - 1)`. -/
def handleKey (key : String) (s : QueueState) : QueueState :=
  if s.tab ≠ Tab.queue then s
  else if s.showNewShark || s.showPicker || strTruthy s.lightboxUrl then s
  else
    let s1 := if key = "ArrowLeft" then { s with idx := max (s.idx - 1) 0 } else s
    if key = "ArrowRight" then
      { s1 with idx := min (s1.idx + 1) ((s.queue.length : ℤ) - 1) }
    else s1

/-- The Prev button: `setIdx(i => Math.max(i - 1, 0))`. -/
def clickPrev (s : QueueState) : QueueState :=
  { s with idx := max (s.idx - 1) 0 }

/-- The Next button: `setIdx(i => Math.min(i + 1, total - 1))`. -/
def clickNext (s : QueueState) : QueueState :=
  { s with idx := min (s.idx + 1) ((s.queue.length : ℤ) - 1) }

/-- The cursor invariant claimed by the specification:
`0 ≤ cursor < max(len(items), 1)`. -/
def cursorInv (s : QueueState) : Prop :=
  0 ≤ s.idx ∧ s.idx < max (s.queue.length : ℤ) 1

instance (s : QueueState) : Decidable (cursorInv s) := by
  unfold cursorInv; infer_instance

/-- Annotation draft state of the photo-detail page (`PhotoDetail`):
the three-step capture machine plus the drag-surface fields. -/
structure AnnotState where
  photo : Option Photo
  step : ℕ
  sharkRect : Option BBox
  zoneRect : Option BBox
  orientation : Option Orientation
  dragStart : Option (ℚ × ℚ)
  liveRect : Option BBox
  submitting : Bool
  error : String
deriving DecidableEq, Repr

/-- `handleMouseDown`: record the drag origin and a degenerate live rect. -/
def handleMouseDown (pos : ℚ × ℚ) (s : AnnotState) : AnnotState :=
  { s with dragStart := some pos
         , liveRect := some { x := pos.1, y := pos.2, w := 0, h := 0 } }

/-- `handleMouseMove`: while a drag is active, recompute the live rect. -/
def handleMouseMove (pos : ℚ × ℚ) (s : AnnotState) : AnnotState :=
  match s.dragStart with
  | none => s
  | some d => { s with liveRect := some (normaliseRect d.1 d.2 pos.1 pos.2) }

/-- `handleMouseUp` from the photo-detail page: if no drag or no live rect,
just clear `dragStart`; otherwise commit the live rect to the active step's
slot when both its sides exceed `0.02`, then clear `dragStart`/`liveRect`
unconditionally. -/
def handleMouseUp (s : AnnotState) : AnnotState :=
  match s.dragStart, s.liveRect with
  | none, _ => { s with dragStart := none }
  | some _, none => { s with dragStart := none }
  | some _, some r =>
    let s1 :=
      if r.w > (0.02 : ℚ) ∧ r.h > (0.02 : ℚ) then
        let s2 := if s.step = 1 then { s with sharkRect := some r } else s
        if s.step = 2 then { s2 with zoneRect := some r } else s2
      else s
    { s1 with dragStart := none, liveRect := none }

/-- Outcome of the awaited `annotatePhoto` call: success carries the
photo returned by the server. -/
inductive AnnotateResult where
  | ok : Photo → AnnotateResult
  | fail : String → AnnotateResult
deriving DecidableEq, Repr

/-- `handleSubmit` from the photo-detail page, with the outcome of the
awaited server call made explicit.  Guard: photo, sharkRect, zoneRect and
orientation must all be present, else a no-op.  `setError('')` runs before
the call; on success the local photo is replaced and the step reset to 1;
on failure the error message is set.  Draft fields are never touched. -/
def handleSubmit (res : AnnotateResult) (s : AnnotState) : AnnotState :=
  match s.photo, s.sharkRect, s.zoneRect, s.orientation with
  | some _, some _, some _, some _ =>
    match res with
    | AnnotateResult.ok updated =>
        { s with error := "", photo := some updated, step := 1, submitting := false }
    | AnnotateResult.fail msg =>
        { s with error := msg, submitting := false }
  | _, _, _, _ => s

/-! ## Geometry lemmas -/

/-- The one-argument clamp always lands in the unit interval. -/
theorem clamp01_mem (v : ℚ) : unitI (clamp01 v) := by
  unfold clamp01 clamp unitI
  constructor
  · exact le_max_left 0 _
  · exact max_le (by norm_num) (min_le_left 1 v)

/-- Clamping is the identity on the unit interval. -/
theorem clamp01_eq_self (v : ℚ) (h : unitI v) : clamp01 v = v := by
  obtain ⟨h0, h1⟩ := h
  unfold clamp01 clamp
  rw [min_eq_right h1, max_eq_right h0]

/-- Claim C10: for arbitrary rational endpoints, `normaliseRect` returns a
rectangle all of whose components lie in `[0, 1]` (hence `w, h ≥ 0`): the
internal clamping makes the NormalizedRect invariant unconditional. -/
theorem normaliseRect_always_in_unit (ax ay bx b_y : ℚ) :
    rectIn01 (normaliseRect ax ay bx b_y) := by
  refine ⟨?_, ?_, ?_, ?_⟩ <;> exact clamp01_mem _

/-- Claim C5: for drag endpoints inside the unit square, `normaliseRect`
returns exactly `{min, min, abs-diff, abs-diff}` and all components lie in
`[0, 1]`. -/
theorem normaliseRect_unit_inputs (ax ay bx b_y : ℚ)
    (ha : unitI ax) (hb : unitI ay) (hc : unitI bx) (hd : unitI b_y) :
    normaliseRect ax ay bx b_y
        = { x := min ax bx, y := min ay b_y, w := |bx - ax|, h := |b_y - ay| }
      ∧ rectIn01 (normaliseRect ax ay bx b_y) := by
  obtain ⟨ha0, ha1⟩ := ha
  obtain ⟨hb0, hb1⟩ := hb
  obtain ⟨hc0, hc1⟩ := hc
  obtain ⟨hd0, hd1⟩ := hd
  have hx : clamp01 (min ax bx) = min ax bx :=
    clamp01_eq_self _ ⟨le_min ha0 hc0, le_trans (min_le_left _ _) ha1⟩
  have hy : clamp01 (min ay b_y) = min ay b_y :=
    clamp01_eq_self _ ⟨le_min hb0 hd0, le_trans (min_le_left _ _) hb1⟩
  have hw : clamp01 |bx - ax| = |bx - ax| := by
    refine clamp01_eq_self _ ⟨abs_nonneg _, ?_⟩
    rw [abs_le]
    constructor <;> linarith
  have hh : clamp01 |b_y - ay| = |b_y - ay| := by
    refine clamp01_eq_self _ ⟨abs_nonneg _, ?_⟩
    rw [abs_le]
    constructor <;> linarith
  refine ⟨?_, ?_, ?_, ?_, ?_⟩
  · unfold normaliseRect
    rw [hx, hy, hw, hh]
  all_goals exact clamp01_mem _

/-- Witness for C5: the specification's own scenario, drawing the shark
rectangle from `(0.1, 0.1)` to `(0.5, 0.5)`. -/
theorem normaliseRect_unit_inputs_witness :
    (unitI (0.1 : ℚ) ∧ unitI (0.5 : ℚ))
    ∧ normaliseRect 0.1 0.1 0.5 0.5
        = { x := min (0.1 : ℚ) 0.5, y := min (0.1 : ℚ) 0.5
          , w := |(0.5 : ℚ) - 0.1|, h := |(0.5 : ℚ) - 0.1| }
    ∧ rectIn01 (normaliseRect 0.1 0.1 0.5 0.5) :=
  ⟨⟨by with_unfolding_all decide, by with_unfolding_all decide⟩,
   normaliseRect_unit_inputs 0.1 0.1 0.5 0.5
     (by with_unfolding_all decide) (by with_unfolding_all decide)
     (by with_unfolding_all decide) (by with_unfolding_all decide)⟩

/-- Claim C8: converting a shark-relative zone rect to image space keeps
its origin inside the shark rectangle's horizontal and vertical extent. -/
theorem toImageSpace_inside_shark (S Z : BBox)
    (hS : rectIn01 S) (hZ : rectIn01 Z) :
    S.x ≤ (toImageSpace Z S).x ∧ (toImageSpace Z S).x ≤ S.x + S.w
    ∧ S.y ≤ (toImageSpace Z S).y ∧ (toImageSpace Z S).y ≤ S.y + S.h := by
  obtain ⟨hSx, hSy, hSw, hSh⟩ := hS
  obtain ⟨hZx, hZy, hZw, hZh⟩ := hZ
  have h1 : 0 ≤ Z.x * S.w := mul_nonneg hZx.1 hSw.1
  have h2 : Z.x * S.w ≤ S.w := by nlinarith [hZx.2, hSw.1]
  have h3 : 0 ≤ Z.y * S.h := mul_nonneg hZy.1 hSh.1
  have h4 : Z.y * S.h ≤ S.h := by nlinarith [hZy.2, hSh.1]
  unfold toImageSpace
  refine ⟨?_, ?_, ?_, ?_⟩ <;> dsimp <;> linarith

/-- Demo shark rectangle from the specification's scenario. -/
def sharkDemo : BBox := { x := 0.1, y := 0.1, w := 0.4, h := 0.4 }

/-- Demo zone rectangle from the specification's scenario. -/
def zoneDemo : BBox := { x := 0, y := 0, w := 0.5, h := 0.5 }

/-- Witness for C8 at the specification's example rectangles. -/
theorem toImageSpace_inside_shark_witness :
    (rectIn01 sharkDemo ∧ rectIn01 zoneDemo)
    ∧ sharkDemo.x ≤ (toImageSpace zoneDemo sharkDemo).x
    ∧ (toImageSpace zoneDemo sharkDemo).x ≤ sharkDemo.x + sharkDemo.w
    ∧ sharkDemo.y ≤ (toImageSpace zoneDemo sharkDemo).y
    ∧ (toImageSpace zoneDemo sharkDemo).y ≤ sharkDemo.y + sharkDemo.h :=
  ⟨⟨by with_unfolding_all decide, by with_unfolding_all decide⟩,
   toImageSpace_inside_shark sharkDemo zoneDemo
     (by with_unfolding_all decide) (by with_unfolding_all decide)⟩

/-! ## Validation queue lemmas -/

/-- The keyboard handler never changes the working set. -/
theorem handleKey_queue_eq (k : String) (s : QueueState) :
    (handleKey k s).queue = s.queue := by
  simp only [handleKey]
  split_ifs <;> rfl

/-- Closed form of the cursor after a key event. -/
theorem handleKey_idx (k : String) (s : QueueState) :
    (handleKey k s).idx =
      if s.tab ≠ Tab.queue then s.idx
      else if (s.showNewShark || s.showPicker || strTruthy s.lightboxUrl) then s.idx
      else if k = "ArrowRight" then
        min ((if k = "ArrowLeft" then max (s.idx - 1) 0 else s.idx) + 1)
            ((s.queue.length : ℤ) - 1)
      else if k = "ArrowLeft" then max (s.idx - 1) 0
      else s.idx := by
  simp only [handleKey]
  split_ifs <;> rfl

/-- The keyboard handler never changes the candidate selection. -/
theorem handleKey_selection_eq (k : String) (s : QueueState) :
    (handleKey k s).selectedCandidate = s.selectedCandidate := by
  simp only [handleKey]
  split_ifs <;> rfl

/-- Demo photos for concrete witnesses. -/
def photoA : Photo :=
  { id := "a"
  , object_key := "photos/a.jpg"
  , content_type := "image/jpeg"
  , size := 1024
  , uploaded_at := "2024-01-01T00:00:00Z"
  , taken_at := none
  , gps_lat := none
  , gps_lon := none
  , processing_status := ProcessingStatus.ready_for_validation
  , top5_candidates := none
  , dive_session_id := none
  , shark_id := none
  , is_profile_photo := false
  , shark_bbox := none
  , zone_bbox := none
  , orientation := none
  , auto_detected := false
  , url := none }

/-- A second demo photo. -/
def photoB : Photo := { photoA with id := "b" }

/-- Demo candidate, echoing the specification's confirm scenario. -/
def candDemo : Candidate :=
  { shark_id := "s1", display_name := "Shark 1", score := 0.9 }

/-- A loaded two-photo queue with a candidate selected for the first photo. -/
def selState : QueueState :=
  { initialQueueState with
      queue := [photoA, photoB]
    , selectedCandidate := some candDemo }

/-- Counterexample to claim C1 as stated: with an empty working set (the
state right after an empty load), an ArrowRight key event sets the cursor
to `min(0 + 1, 0 - 1) = -1`, violating `0 ≤ cursor`. -/
theorem arrowRight_on_empty_queue_breaks_cursor :
    cursorInv initialQueueState
    ∧ (handleKey "ArrowRight" initialQueueState).idx = -1
    ∧ ¬ cursorInv (handleKey "ArrowRight" initialQueueState) := by
  refine ⟨by decide, by decide, by decide⟩

/-- Claim C1 (amended): the cursor bound `0 ≤ cursor < max(len(items),1)`
is preserved by the initial load, by Prev (button or ArrowLeft), by Next
on a non-empty working set, by any key event on a non-empty working set,
by any key event other than ArrowRight, and by removal of the current
photo; removal sets the cursor to `min(cursor, len(items) - 1)` clamped
below at 0 (with `items` the post-removal working set). -/
theorem cursor_invariant_after_mutations (s : QueueState) (q : List Photo)
    (k : String) (hinv : cursorInv s) :
    cursorInv (loadQueue q s)
    ∧ cursorInv (clickPrev s)
    ∧ (s.queue ≠ [] → cursorInv (clickNext s))
    ∧ (s.queue ≠ [] → cursorInv (handleKey k s))
    ∧ (k ≠ "ArrowRight" → cursorInv (handleKey k s))
    ∧ cursorInv (removeCurrentAndAdvance s)
    ∧ (removeCurrentAndAdvance s).idx =
        max (min s.idx (((removeCurrentAndAdvance s).queue.length : ℤ) - 1)) 0 := by
  obtain ⟨h0, h1⟩ := hinv
  refine ⟨?_, ?_, ?_, ?_, ?_, ?_, ?_⟩
  · unfold cursorInv loadQueue
    dsimp
    omega
  · unfold cursorInv clickPrev
    dsimp
    omega
  · intro hne
    have hlen : 1 ≤ (s.queue.length : ℤ) := by
      have h := List.length_pos.mpr hne
      omega
    unfold cursorInv clickNext
    dsimp
    omega
  · intro hne
    have hlen : 1 ≤ (s.queue.length : ℤ) := by
      have h := List.length_pos.mpr hne
      omega
    unfold cursorInv
    rw [handleKey_queue_eq, handleKey_idx]
    split_ifs <;> omega
  · intro hk
    unfold cursorInv
    rw [handleKey_queue_eq, handleKey_idx]
    split_ifs <;> omega
  · unfold cursorInv removeCurrentAndAdvance
    dsimp
    omega
  · unfold removeCurrentAndAdvance
    dsimp
    omega

/-- Witness for the amended C1 at a loaded two-photo queue. -/
theorem cursor_invariant_after_mutations_witness :
    cursorInv selState
    ∧ cursorInv (loadQueue [photoA] selState)
    ∧ cursorInv (clickPrev selState)
    ∧ (selState.queue ≠ [] → cursorInv (clickNext selState))
    ∧ (selState.queue ≠ [] → cursorInv (handleKey "ArrowLeft" selState))
    ∧ ("ArrowLeft" ≠ "ArrowRight" → cursorInv (handleKey "ArrowLeft" selState))
    ∧ cursorInv (removeCurrentAndAdvance selState)
    ∧ (removeCurrentAndAdvance selState).idx =
        max (min selState.idx
              (((removeCurrentAndAdvance selState).queue.length : ℤ) - 1)) 0 :=
  ⟨by decide, cursor_invariant_after_mutations selState [photoA] "ArrowLeft" (by decide)⟩

/-- Counterexample to claim C2 as stated: an ArrowRight event on a
two-photo queue with a selected candidate moves the cursor but leaves
`selectedCandidate` set — navigation does not reset the selection. -/
theorem navigation_keeps_selection_ce :
    (handleKey "ArrowRight" selState).idx ≠ selState.idx
    ∧ (handleKey "ArrowRight" selState).selectedCandidate
        = selState.selectedCandidate
    ∧ selState.selectedCandidate ≠ none := by
  refine ⟨by decide, rfl, by simp [selState]⟩

/-- Claim C2 (amended): Prev/Next navigation — by button or by key event —
leaves `selectedCandidate` unchanged; the selection is reset to null only
by `removeCurrentAndAdvance`, i.e. when the current photo is removed after
a successful resolution. -/
theorem navigation_preserves_selection (s : QueueState) (k : String) :
    (handleKey k s).selectedCandidate = s.selectedCandidate
    ∧ (clickPrev s).selectedCandidate = s.selectedCandidate
    ∧ (clickNext s).selectedCandidate = s.selectedCandidate
    ∧ (removeCurrentAndAdvance s).selectedCandidate = none :=
  ⟨handleKey_selection_eq k s, rfl, rfl, rfl⟩

/-- Claim C3: a failed resolution action leaves the working set, the
cursor and the candidate selection unchanged; the queue is mutated only by
the success branch. -/
theorem failed_action_preserves_queue_state (s : QueueState) (msg : String) :
    (submit (SubmitResult.fail msg) s).queue = s.queue
    ∧ (submit (SubmitResult.fail msg) s).idx = s.idx
    ∧ (submit (SubmitResult.fail msg) s).selectedCandidate
        = s.selectedCandidate := by
  unfold submit
  cases hp : photoAt s <;> simp

/-- Claim C7: while the create-identity modal, the picker modal or the
lightbox is open, or while the unlinked tab is active, a key event is a
complete no-op — in particular the cursor does not change. -/
theorem handleKey_suppressed (k : String) (s : QueueState)
    (h : s.tab ≠ Tab.queue ∨ s.showNewShark = true ∨ s.showPicker = true
         ∨ strTruthy s.lightboxUrl = true) :
    handleKey k s = s ∧ (handleKey k s).idx = s.idx := by
  have he : handleKey k s = s := by
    unfold handleKey
    by_cases ht : s.tab ≠ Tab.queue
    · rw [if_pos ht]
    · rw [if_neg ht]
      have hb : (s.showNewShark || s.showPicker || strTruthy s.lightboxUrl) = true := by
        rcases h with h | h | h | h
        · exact absurd h ht
        all_goals simp [h]
      rw [if_pos hb]
  exact ⟨he, by rw [he]⟩

/-- A state with the create-identity modal open. -/
def modalState : QueueState := { selState with showNewShark := true }

/-- Witness for C7: ArrowRight while the create-identity modal is open. -/
theorem handleKey_suppressed_witness :
    (modalState.tab ≠ Tab.queue ∨ modalState.showNewShark = true
      ∨ modalState.showPicker = true ∨ strTruthy modalState.lightboxUrl = true)
    ∧ handleKey "ArrowRight" modalState = modalState
    ∧ (handleKey "ArrowRight" modalState).idx = modalState.idx :=
  ⟨Or.inr (Or.inl rfl),
   handleKey_suppressed "ArrowRight" modalState (Or.inr (Or.inl rfl))⟩

/-! ## Order-preserving removal -/

/-- Positions of a list all sit at or above the running counter, so a
filter looking for an index below the counter keeps everything. -/
theorem filterIdxNe_of_lt {α : Type} (i : ℤ) :
    ∀ (l : List α) (n : ℤ), i < n → filterIdxNe i n l = l := by
  intro l
  induction l with
  | nil => intro n _; rfl
  | cons a as ih =>
    intro n h
    unfold filterIdxNe
    rw [if_pos (by omega), ih (n + 1) (by omega)]

/-- Filtering out position `n + k` deletes exactly the `k`-th element,
preserving the order of the rest. -/
theorem filterIdxNe_take_drop {α : Type} :
    ∀ (l : List α) (n : ℤ) (k : ℕ), k < l.length →
      filterIdxNe (n + k) n l = l.take k ++ l.drop (k + 1) := by
  intro l
  induction l with
  | nil => intro n k h; simp at h
  | cons a as ih =>
    intro n k h
    cases k with
    | zero =>
      unfold filterIdxNe
      rw [if_neg (by omega), filterIdxNe_of_lt _ as (n + 1) (by omega)]
      simp
    | succ k =>
      unfold filterIdxNe
      rw [if_pos (by push_cast; omega)]
      have hk : k < as.length := by simpa using Nat.lt_of_succ_lt_succ h
      have harg : n + ((k : ℤ) + 1) = (n + 1) + (k : ℤ) := by ring
      have hrec := ih (n + 1) k hk
      push_cast
      rw [harg, hrec]
      simp

/-- Claim C9: a successful resolution action on a state whose cursor is in
bounds removes exactly the element at the cursor, keeping every other
photo in its original relative order, and shrinks the working set by one. -/
theorem success_removes_exactly_cursor (s : QueueState)
    (h0 : 0 ≤ s.idx) (h1 : s.idx < (s.queue.length : ℤ)) :
    (submit SubmitResult.ok s).queue
        = s.queue.take s.idx.toNat ++ s.queue.drop (s.idx.toNat + 1)
    ∧ (submit SubmitResult.ok s).queue.length + 1 = s.queue.length := by
  have hidx : s.idx.toNat < s.queue.length := by omega
  have hp : photoAt s = some (s.queue.get ⟨s.idx.toNat, hidx⟩) := by
    unfold photoAt
    rw [if_pos h0]
    simp [List.getElem?_eq_getElem hidx]
  have hkey : filterIdxNe s.idx 0 s.queue
      = s.queue.take s.idx.toNat ++ s.queue.drop (s.idx.toNat + 1) := by
    have h := filterIdxNe_take_drop s.queue 0 s.idx.toNat hidx
    rw [zero_add, Int.toNat_of_nonneg h0] at h
    exact h
  have hq : (submit SubmitResult.ok s).queue = filterIdxNe s.idx 0 s.queue := by
    unfold submit
    rw [hp]
    rfl
  refine ⟨hq.trans hkey, ?_⟩
  rw [hq, hkey]
  simp only [List.length_append, List.length_take, List.length_drop]
  omega

/-- Witness for C9: confirming the first photo of the two-photo queue
removes exactly `photoA` and keeps `photoB`. -/
theorem success_removes_exactly_cursor_witness :
    (0 ≤ selState.idx ∧ selState.idx < (selState.queue.length : ℤ))
    ∧ (submit SubmitResult.ok selState).queue
        = selState.queue.take selState.idx.toNat
            ++ selState.queue.drop (selState.idx.toNat + 1)
    ∧ (submit SubmitResult.ok selState).queue.length + 1
        = selState.queue.length :=
  ⟨⟨by decide, by decide⟩,
   success_removes_exactly_cursor selState (by decide) (by decide)⟩

/-! ## Annotation state machine -/

/-- Claim C4: with the submit guard satisfied, a successful `annotatePhoto`
call replaces the local photo with the server's photo and resets the step
to 1, while a failed call keeps the whole draft — step, shark rect, zone
rect, orientation — intact and surfaces the error message. -/
theorem handleSubmit_commit_or_keep (s : AnnotState) (p updated : Photo)
    (rs rz : BBox) (o : Orientation) (msg : String)
    (hp : s.photo = some p) (hs : s.sharkRect = some rs)
    (hz : s.zoneRect = some rz) (ho : s.orientation = some o) :
    ((handleSubmit (AnnotateResult.ok updated) s).photo = some updated
      ∧ (handleSubmit (AnnotateResult.ok updated) s).step = 1)
    ∧ ((handleSubmit (AnnotateResult.fail msg) s).step = s.step
      ∧ (handleSubmit (AnnotateResult.fail msg) s).sharkRect = s.sharkRect
      ∧ (handleSubmit (AnnotateResult.fail msg) s).zoneRect = s.zoneRect
      ∧ (handleSubmit (AnnotateResult.fail msg) s).orientation = s.orientation
      ∧ (handleSubmit (AnnotateResult.fail msg) s).error = msg) := by
  unfold handleSubmit
  rw [hp, hs, hz, ho]
  simp

/-- A complete annotation draft sitting at step 3. -/
def annotDemo : AnnotState :=
  { photo := some photoA
  , step := 3
  , sharkRect := some sharkDemo
  , zoneRect := some zoneDemo
  , orientation := some Orientation.face_left
  , dragStart := none
  , liveRect := none
  , submitting := false
  , error := "" }

/-- Witness for C4 at the complete draft `annotDemo`. -/
theorem handleSubmit_commit_or_keep_witness :
    (annotDemo.photo = some photoA
      ∧ annotDemo.sharkRect = some sharkDemo
      ∧ annotDemo.zoneRect = some zoneDemo
      ∧ annotDemo.orientation = some Orientation.face_left)
    ∧ ((handleSubmit (AnnotateResult.ok photoB) annotDemo).photo = some photoB
      ∧ (handleSubmit (AnnotateResult.ok photoB) annotDemo).step = 1)
    ∧ ((handleSubmit (AnnotateResult.fail "boom") annotDemo).step = annotDemo.step
      ∧ (handleSubmit (AnnotateResult.fail "boom") annotDemo).sharkRect
          = annotDemo.sharkRect
      ∧ (handleSubmit (AnnotateResult.fail "boom") annotDemo).zoneRect
          = annotDemo.zoneRect
      ∧ (handleSubmit (AnnotateResult.fail "boom") annotDemo).orientation
          = annotDemo.orientation
      ∧ (handleSubmit (AnnotateResult.fail "boom") annotDemo).error = "boom") :=
  ⟨⟨rfl, rfl, rfl, rfl⟩,
   handleSubmit_commit_or_keep annotDemo photoA photoB sharkDemo zoneDemo
     Orientation.face_left "boom" rfl rfl rfl rfl⟩

/-- Claim C6: a drag whose live rectangle has width or height at most
`0.02` never commits: mouse-up leaves both `sharkRect` and `zoneRect`
unchanged. -/
theorem small_drag_never_commits (s : AnnotState) (r : BBox)
    (hl : s.liveRect = some r)
    (hsmall : r.w ≤ (0.02 : ℚ) ∨ r.h ≤ (0.02 : ℚ)) :
    (handleMouseUp s).sharkRect = s.sharkRect
    ∧ (handleMouseUp s).zoneRect = s.zoneRect := by
  have hng : ¬ (r.w > (0.02 : ℚ) ∧ r.h > (0.02 : ℚ)) := by
    rcases hsmall with h | h <;> intro hc <;> rcases hc with ⟨h1, h2⟩ <;> linarith
  unfold handleMouseUp
  rcases hd : s.dragStart with _ | d <;> simp [hl, hng]

/-- A live rectangle too thin to pass the size gate. -/
def liveDemo : BBox := { x := 0, y := 0, w := 0.01, h := 0.5 }

/-- A drag in progress at step 1 whose live rectangle is too thin. -/
def dragDemo : AnnotState :=
  { annotDemo with
      step := 1
    , dragStart := some (0, 0)
    , liveRect := some liveDemo }

/-- Witness for C6: releasing the too-thin drag commits nothing. -/
theorem small_drag_never_commits_witness :
    (dragDemo.liveRect = some liveDemo
      ∧ (liveDemo.w ≤ (0.02 : ℚ) ∨ liveDemo.h ≤ (0.02 : ℚ)))
    ∧ (handleMouseUp dragDemo).sharkRect = dragDemo.sharkRect
    ∧ (handleMouseUp dragDemo).zoneRect = dragDemo.zoneRect :=
  ⟨⟨rfl, Or.inl (by with_unfolding_all decide)⟩,
   small_drag_never_commits dragDemo liveDemo rfl
     (Or.inl (by with_unfolding_all decide))⟩

end SharkId
